import Mathlib

/-!
Verification of the probitas-client result-classification and cancellation
core against its TypeScript sources.

The development shallowly embeds the relevant source functions:

* `packages/probitas-client/types.ts` — the `ClientError` hierarchy
  (`TimeoutError` carrying `timeoutMs`, `AbortError` without a duration);
* `packages/probitas-client-http/client.ts` — `convertFetchError`,
  `createHttpError` and the classification part of `HttpClientImpl.#request`;
* `packages/probitas-client-http` response module — the body-caching
  `HttpResponseSuccessImpl.text/json` accessors;
* `packages/probitas-client-sqs/result.ts` — the result factories,
  `withOptions`, `convertSqsError`, `validateMessageSize` and the
  `SqsClientImpl` operations `send`, `sendBatch`, `close`;
* the Redis result factories and `MySqlClientImpl.close`.

JavaScript error objects are modelled by the inductive `JsErr`; `cause`
chains are omitted because no modelled control flow reads them.  A JS object
field that an implementation may leave absent (`undefined`) is modelled as
an outer `Option` (with `none` = absent), and a present-but-`null` value as
an inner `none`.
-/

namespace Probitas

/-- Does `p` occur at the head of `l`?  (helper for `String.includes`). -/
def listHeadMatch : List Char → List Char → Bool
  | [], _ => true
  | _ :: _, [] => false
  | p :: ps, c :: cs => p == c && listHeadMatch ps cs

/-- Does `p` occur anywhere inside `l`?  (helper for `String.includes`). -/
def listOccurs (p : List Char) : List Char → Bool
  | [] => p.isEmpty
  | c :: cs => listHeadMatch p (c :: cs) || listOccurs p cs

/-- Model of JavaScript `String.prototype.includes`. -/
def strIncludes (s pat : String) : Bool :=
  listOccurs pat.data s.data

/--
A JavaScript error (or arbitrary thrown value).  Constructors mirror the
error classes of the repository plus a generic `Error` (with a `name` and an
`instanceof TypeError` flag) and a non-`Error` thrown value.
`timeoutErr` carries `timeoutMs` as declared in `packages/probitas-client/types.ts`
(lines 87–96); `abortErr` has no duration field (lines 101–108).
`mysqlNativeErr` models a mysql2 driver error exposing the optional `errno`
and `code` properties read by `convertMySqlError`; `mysqlErr` (kind
`unknown`), `accessDeniedErr`, `connectionRefusedErr`, `querySyntaxErr`,
`constraintErr` and `deadlockErr` model the `SqlError` subclasses that
taxonomy constructs, carrying the `errno` it stores (`cause` and `sqlState`
are omitted, as with every other `cause` chain, because no modelled control
flow reads them).
-/
inductive JsErr : Type where
  | timeoutErr (msg : String) (timeoutMs : Nat)
  | abortErr (msg : String)
  | httpNetworkErr (msg : String)
  | httpStatusErr (status : Nat) (statusText : String) (msg : String)
  | sqsConnectionErr (msg : String)
  | sqsQueueNotFoundErr (msg : String) (queueUrl : String)
  | sqsMessageNotFoundErr (msg : String)
  | sqsCommandErr (msg : String) (operation : String)
  | sqsMessageTooLargeErr (msg : String) (size : Nat) (maxSize : Nat)
  | mysqlNativeErr (name : String) (msg : String) (errno : Option Nat)
      (code : Option String)
  | mysqlErr (msg : String) (errno : Option Nat)
  | accessDeniedErr (msg : String) (errno : Option Nat)
  | connectionRefusedErr (msg : String) (errno : Option Nat)
  | querySyntaxErr (msg : String) (errno : Option Nat)
  | constraintErr (msg : String) (constraint : String) (errno : Option Nat)
  | deadlockErr (msg : String) (errno : Option Nat)
  | genericErr (name : String) (msg : String) (isTypeError : Bool)
  | nonError (repr : String)
  deriving DecidableEq

namespace JsErr

/-- `instanceof Error` for the modelled values. -/
def isJsError : JsErr → Bool
  | .nonError _ => false
  | _ => true

/-- The `name` property of the modelled error. -/
def errName : JsErr → String
  | .timeoutErr .. => "TimeoutError"
  | .abortErr .. => "AbortError"
  | .httpNetworkErr .. => "HttpNetworkError"
  | .httpStatusErr .. => "HttpError"
  | .sqsConnectionErr .. => "SqsConnectionError"
  | .sqsQueueNotFoundErr .. => "SqsQueueNotFoundError"
  | .sqsMessageNotFoundErr .. => "SqsMessageNotFoundError"
  | .sqsCommandErr .. => "SqsCommandError"
  | .sqsMessageTooLargeErr .. => "SqsMessageTooLargeError"
  | .mysqlNativeErr name _ _ _ => name
  | .mysqlErr .. => "MySqlError"
  | .accessDeniedErr .. => "AccessDeniedError"
  | .connectionRefusedErr .. => "ConnectionRefusedError"
  | .querySyntaxErr .. => "QuerySyntaxError"
  | .constraintErr .. => "ConstraintError"
  | .deadlockErr .. => "DeadlockError"
  | .genericErr name _ _ => name
  | .nonError _ => ""

/-- The `message` property of the modelled error. -/
def errMessage : JsErr → String
  | .timeoutErr msg _ => msg
  | .abortErr msg => msg
  | .httpNetworkErr msg => msg
  | .httpStatusErr _ _ msg => msg
  | .sqsConnectionErr msg => msg
  | .sqsQueueNotFoundErr msg _ => msg
  | .sqsMessageNotFoundErr msg => msg
  | .sqsCommandErr msg _ => msg
  | .sqsMessageTooLargeErr msg _ _ => msg
  | .mysqlNativeErr _ msg _ _ => msg
  | .mysqlErr msg _ => msg
  | .accessDeniedErr msg _ => msg
  | .connectionRefusedErr msg _ => msg
  | .querySyntaxErr msg _ => msg
  | .constraintErr msg _ _ => msg
  | .deadlockErr msg _ => msg
  | .genericErr _ msg _ => msg
  | .nonError _ => ""

/-- The optional `errno` property (present on mysql2 driver errors). -/
def errErrno : JsErr → Option Nat
  | .mysqlNativeErr _ _ errno _ => errno
  | _ => none

/-- The optional `code` property (present on mysql2 driver errors). -/
def errCode : JsErr → Option String
  | .mysqlNativeErr _ _ _ code => code
  | _ => none

/-- `String(error)` for a non-`Error` thrown value. -/
def jsString : JsErr → String
  | .nonError r => r
  | e => e.errMessage

/-- `instanceof TypeError`. -/
def isTypeErr : JsErr → Bool
  | .genericErr _ _ t => t
  | _ => false

/-- Is this one of the client `TimeoutError` / `AbortError` values? -/
def isTimeoutOrAbort : JsErr → Bool
  | .timeoutErr .. => true
  | .abortErr .. => true
  | _ => false

/-- The `timeoutMs` field, when the error is a `TimeoutError`.
`AbortError` (and every other class) has no such field, hence `none`. -/
def timeoutMsOf : JsErr → Option Nat
  | .timeoutErr _ t => some t
  | _ => none

/-- Protocol-tier SQS errors (the `SqsError` union of the SQS package). -/
def isSqsOperationErr : JsErr → Bool
  | .sqsQueueNotFoundErr .. => true
  | .sqsMessageNotFoundErr .. => true
  | .sqsMessageTooLargeErr .. => true
  | .sqsCommandErr .. => true
  | _ => false

/-- The `SqsFailureError` union: `SqsConnectionError | AbortError | TimeoutError`
(`packages/probitas-client-sqs/result.ts`, line 14). -/
def isSqsFailureErr : JsErr → Bool
  | .sqsConnectionErr .. => true
  | .abortErr .. => true
  | .timeoutErr .. => true
  | _ => false

/-- Is this an `SqsMessageTooLargeError`? -/
def isSizeErr : JsErr → Bool
  | .sqsMessageTooLargeErr .. => true
  | _ => false

end JsErr

/--
`convertFetchError` from `packages/probitas-client-http/client.ts`
(lines 218–253): maps an exception thrown by `fetch` to an
`HttpFailureError`.  Pass-through of the client `AbortError` / `TimeoutError`
/ `HttpNetworkError` instances comes first, then name-based wrapping of
native exceptions.
-/
def convertFetchError (error : JsErr) : JsErr :=
  match error with
  | .abortErr .. => error
  | .timeoutErr .. => error
  | .httpNetworkErr .. => error
  | e =>
    if e.isJsError then
      if e.errName == "AbortError" then
        .abortErr "Request was aborted"
      else if e.errName == "TimeoutError" then
        .timeoutErr "Request timed out" 0
      else if e.isTypeErr then
        .httpNetworkErr ("Connection failed: " ++ e.errMessage)
      else if e.errName == "NetworkError" then
        .httpNetworkErr ("Network error: " ++ e.errMessage)
      else
        .httpNetworkErr e.errMessage
    else
      .httpNetworkErr e.jsString

/--
`convertSqsError` from `packages/probitas-client-sqs/result.ts`
(lines 862–903).  The source function has return type `never`: it always
throws.  The model returns the thrown error.  Client `TimeoutError` /
`AbortError` values are rethrown unchanged before any classification.
-/
def convertSqsError (error : JsErr) (operation : String)
    (ctxQueueUrl : Option String) : JsErr :=
  match error with
  | .timeoutErr .. => error
  | .abortErr .. => error
  | e =>
    if e.isJsError then
      let message := e.errMessage
      let errorName := e.errName
      if errorName == "QueueDoesNotExist" ||
          errorName == "AWS.SimpleQueueService.NonExistentQueue" ||
          strIncludes message "does not exist" ||
          strIncludes message "NonExistentQueue" then
        .sqsQueueNotFoundErr message (ctxQueueUrl.getD "unknown")
      else if errorName == "ReceiptHandleIsInvalid" ||
          strIncludes message "ReceiptHandleIsInvalid" ||
          strIncludes message "receipt handle" then
        .sqsMessageNotFoundErr message
      else
        .sqsCommandErr message operation
    else
      .sqsCommandErr e.jsString operation

/-- `ER_ACCESS_DENIED_ERROR` (mysql errors source, line 168). -/
def ER_ACCESS_DENIED_ERROR : Nat := 1045

/-- `ER_DUP_ENTRY` (mysql errors source, line 169). -/
def ER_DUP_ENTRY : Nat := 1062

/-- `ER_NO_REFERENCED_ROW_2` (mysql errors source, line 170). -/
def ER_NO_REFERENCED_ROW_2 : Nat := 1452

/-- `ER_ROW_IS_REFERENCED_2` (mysql errors source, line 171). -/
def ER_ROW_IS_REFERENCED_2 : Nat := 1451

/-- `ER_LOCK_DEADLOCK` (mysql errors source, line 172). -/
def ER_LOCK_DEADLOCK : Nat := 1213

/-- `ER_PARSE_ERROR` (mysql errors source, line 173). -/
def ER_PARSE_ERROR : Nat := 1064

/-- `ER_CHECK_CONSTRAINT_VIOLATED` (mysql errors source, line 174). -/
def ER_CHECK_CONSTRAINT_VIOLATED : Nat := 3819

/--
`convertMySqlError` from the mysql package errors source (lines 179–230):
maps a mysql2 failure to an `SqlError` subclass.  A non-`Error` value is
wrapped as `MySqlError(String(error))` with no options (so no `errno`).
For an `Error`, the branches read only the optional `code` and `errno`
properties — there is no pass-through of client `TimeoutError` /
`AbortError` values, which therefore fall to the final
`new MySqlError(err.message, options)`.  The constraint-name regex of the
constraint branch is abstracted as `extractConstraint`.
-/
def convertMySqlError (extractConstraint : String → String)
    (error : JsErr) : JsErr :=
  if !error.isJsError then
    .mysqlErr error.jsString none
  else
    let errno := error.errErrno
    let code := error.errCode
    let message := error.errMessage
    if code == some "ECONNREFUSED" then
      .connectionRefusedErr message errno
    else if errno == some ER_ACCESS_DENIED_ERROR then
      .accessDeniedErr message errno
    else if errno == some ER_PARSE_ERROR then
      .querySyntaxErr message errno
    else if errno == some ER_DUP_ENTRY || errno == some ER_NO_REFERENCED_ROW_2
        || errno == some ER_ROW_IS_REFERENCED_2
        || errno == some ER_CHECK_CONSTRAINT_VIOLATED then
      .constraintErr message (extractConstraint message) errno
    else if errno == some ER_LOCK_DEADLOCK then
      .deadlockErr message errno
    else
      .mysqlErr message errno

/-- The settlement of an awaited JavaScript promise: a value or a rejection. -/
inductive Settle (α : Type) : Type where
  | value (v : α)
  | thrown (e : JsErr)
  deriving DecidableEq

/-- Per-call options recognised by `withOptions`
(`CommonOptions` in `packages/probitas-client/types.ts`, lines 38–53;
the `retry` field is never read by the modelled core). -/
structure CommonOpts : Type where
  timeout : Option Nat
  signalPresent : Bool
  signalAborted : Bool
  deriving DecidableEq

/-- Which of the racing promises settles first inside `Promise.race`. -/
inductive Winner : Type where
  | operation
  | timer
  | abortSignal
  deriving DecidableEq

/--
`withOptions` from `packages/probitas-client-sqs/result.ts` (lines 805–857):
race the operation against an optional timeout and an optional abort signal.

* with no timeout and no signal the promise is returned untouched;
* an already-aborted signal throws an `AbortError` before the race starts;
* the timer rejects with `TimeoutError` carrying the configured `timeoutMs`;
* the abort listener rejects with an `AbortError`.

The asynchronous race is modelled by passing the operation's own settlement
`opOutcome` and the race `winner`; arms whose promise is not in the race
defer to the operation.
-/
def withOptions {α : Type} (opts : Option CommonOpts) (operation : String)
    (opOutcome : Settle α) (winner : Winner) : Settle α :=
  match opts with
  | none => opOutcome
  | some o =>
    if o.timeout.isNone && !o.signalPresent then
      opOutcome
    else if o.signalPresent && o.signalAborted then
      .thrown (.abortErr ("Operation aborted: " ++ operation))
    else
      match winner with
      | .operation => opOutcome
      | .timer =>
        match o.timeout with
        | some timeoutMs =>
          .thrown (.timeoutErr ("Operation timed out: " ++ operation) timeoutMs)
        | none => opOutcome
      | .abortSignal =>
        if o.signalPresent then
          .thrown (.abortErr ("Operation aborted: " ++ operation))
        else
          opOutcome

-- ============================================================================
-- HTTP client (`packages/probitas-client-http/client.ts`)
-- ============================================================================

/-- The web-standard `Response` as seen by `#request`: bytes are the raw body
stream (`none` = `body === null`). -/
structure RawResp : Type where
  ok : Bool
  status : Nat
  statusText : String
  bodyBytes : Option (List Nat)
  deriving DecidableEq

/--
`createHttpError` from `client.ts` (lines 187–213), with `formatBodyDetail`
(lines 160–182) inlined: the `Deno.inspect` pretty-printer is abstracted as
`fmt`, but the `if (!bodyText) return ""` guard is kept.  Each status
subclass fixes its own `statusText`.
-/
def createHttpError (status : Nat) (statusText : String)
    (bodyText : Option String) (fmt : String → String) : JsErr :=
  let detail : String :=
    match bodyText with
    | none => ""
    | some t => if t == "" then "" else fmt t
  let message := Nat.repr status ++ ": " ++ statusText ++ detail
  if status == 400 then .httpStatusErr 400 "Bad Request" message
  else if status == 401 then .httpStatusErr 401 "Unauthorized" message
  else if status == 403 then .httpStatusErr 403 "Forbidden" message
  else if status == 404 then .httpStatusErr 404 "Not Found" message
  else if status == 409 then .httpStatusErr 409 "Conflict" message
  else if status == 429 then .httpStatusErr 429 "Too Many Requests" message
  else if status == 500 then .httpStatusErr 500 "Internal Server Error" message
  else .httpStatusErr status statusText message

/-- The HTTP response value built by the response factories.  All three
implementation classes declare every field, so no field is optional here. -/
structure HttpRespObj : Type where
  processed : Bool
  ok : Bool
  error : Option JsErr
  status : Option Nat
  statusText : Option String
  bodyBytes : Option (List Nat)
  url : String
  duration : Nat
  deriving DecidableEq

/-- `createHttpResponseFailure`: `processed=false, ok=false`, no transport
metadata, no body. -/
def createHttpResponseFailure (url : String) (duration : Nat)
    (error : JsErr) : HttpRespObj :=
  { processed := false, ok := false, error := some error, status := none
    statusText := none, bodyBytes := none, url := url, duration := duration }

/-- The outcome of one `HttpClientImpl.#request` call: a returned response
or a thrown error. -/
inductive HttpOutcome : Type where
  | returned (r : HttpRespObj)
  | thrown (e : JsErr)
  deriving DecidableEq

/-- `options?.throwOnError ?? this.config.throwOnError ?? false`
(`client.ts`, lines 383–384). -/
def resolveShouldThrow (optionsThrow configThrow : Option Bool) : Bool :=
  (optionsThrow.getD (configThrow.getD false))

/--
The classification part of `HttpClientImpl.#request` (`client.ts`,
lines 346–479), given the settlement of the `fetch` call:

* a `fetch` rejection is classified by `convertFetchError`, then thrown if
  `shouldThrow` else returned as a failure response (lines 396–405);
* a settled response has its body fully read (`null` when the stream is
  `null` or empty), then becomes a success response when `raw.ok`, else an
  error response carrying `createHttpError` of the decoded body text
  (lines 407–437), which is thrown only when `shouldThrow` (lines 474–478).

`dec` abstracts `TextDecoder.decode` and `fmt` the error-detail formatter.
URL building, logging and the cookie jar do not affect classification and
are omitted.
-/
def httpRequest (optionsThrow configThrow : Option Bool) (url : String)
    (dec : List Nat → String) (fmt : String → String)
    (fetched : Settle RawResp) (duration : Nat) : HttpOutcome :=
  let shouldThrow := resolveShouldThrow optionsThrow configThrow
  match fetched with
  | .thrown fetchError =>
    let error := convertFetchError fetchError
    if shouldThrow then .thrown error
    else .returned (createHttpResponseFailure url duration error)
  | .value raw =>
    let responseBody : Option (List Nat) :=
      match raw.bodyBytes with
      | none => none
      | some bs => if bs.length > 0 then some bs else none
    if raw.ok then
      .returned { processed := true, ok := true, error := none
                  status := some raw.status, statusText := some raw.statusText
                  bodyBytes := responseBody, url := url, duration := duration }
    else
      let bodyText := responseBody.map dec
      let httpError := createHttpError raw.status raw.statusText bodyText fmt
      let response : HttpRespObj :=
        { processed := true, ok := false, error := some httpError
          status := some raw.status, statusText := some raw.statusText
          bodyBytes := responseBody, url := url, duration := duration }
      if shouldThrow then .thrown httpError else .returned response

-- ============================================================================
-- HTTP response body caching (`HttpResponseSuccessImpl.text/json`,
-- response module lines 1458–1532 of the concatenated sqs/result.ts source)
-- ============================================================================

/--
The mutable private state of `HttpResponseSuccessImpl` relevant to body
decoding: the pre-read `body` bytes, the `#textCache` (`none` = still
`undefined`), the `#jsonCache` together with the `#jsonParsed` flag, and two
instrumentation counters recording how often `TextDecoder.decode` and
`JSON.parse` ran (the spec's decode-call counter stub).
-/
structure BodyState (β : Type) : Type where
  body : Option (List Nat)
  textCache : Option String
  jsonCache : Option (Option β)
  jsonParsed : Bool
  decodeCount : Nat
  parseCount : Nat
  deriving DecidableEq

/--
`text()` (source lines 1510–1518): `null` for a `null` body, otherwise
decode on first access, cache, and return the cache.  `dec` abstracts
`TextDecoder.decode`; the counter increments exactly where the decoder runs.
-/
def respText {β : Type} (dec : List Nat → String) (s : BodyState β) :
    Option String × BodyState β :=
  match s.body with
  | none => (none, s)
  | some bs =>
    match s.textCache with
    | some c => (some c, s)
    | none =>
      let c := dec bs
      (some c, { s with textCache := some c, decodeCount := s.decodeCount + 1 })

/--
`json()` (source lines 1521–1531): `null` for a `null` body, otherwise parse
`this.text()` on first access, cache the parsed value and set `#jsonParsed`.
`parse` abstracts `JSON.parse`; `some none` models a stored `null`.
-/
def respJson {β : Type} (dec : List Nat → String) (parse : String → β)
    (s : BodyState β) : Option (Option β) × BodyState β :=
  match s.body with
  | none => (some none, s)
  | some _ =>
    if s.jsonParsed then (s.jsonCache, s)
    else
      let tRes := respText dec s
      match tRes.1 with
      | some t =>
        let stored : Option β := some (parse t)
        (some stored,
          { tRes.2 with jsonCache := some stored, jsonParsed := true
                        parseCount := tRes.2.parseCount + 1 })
      | none =>
        (some none,
          { tRes.2 with jsonCache := some none, jsonParsed := true })

-- ============================================================================
-- SQS client (`packages/probitas-client-sqs/result.ts`)
-- ============================================================================

/-- The outcome of one SQS client operation: a returned result object or a
thrown error (the source's `convertSqsError` has return type `never`). -/
inductive SqsOutcome (α : Type) : Type where
  | returned (r : α)
  | thrown (e : JsErr)
  deriving DecidableEq

/-- Is the outcome a thrown `SqsMessageTooLargeError`? -/
def SqsOutcome.isSizeThrow {α : Type} : SqsOutcome α → Bool
  | .thrown e => e.isSizeErr
  | _ => false

/-- `const MAX_MESSAGE_SIZE = 256 * 1024` (result.ts line 800). -/
def MAX_MESSAGE_SIZE : Nat := 256 * 1024

/--
`validateMessageSize` (result.ts lines 946–955): measure the UTF-8 encoding
of the body (`new TextEncoder().encode(body).length`, which is the string's
UTF-8 byte count) and produce an `SqsMessageTooLargeError` when it exceeds
the limit.  The source throws; the model returns the would-be-thrown error.
-/
def validateMessageSize (body : String) : Option JsErr :=
  let size := body.utf8ByteSize
  if MAX_MESSAGE_SIZE < size then
    some (.sqsMessageTooLargeErr
      ("Message size " ++ Nat.repr size ++ " exceeds maximum allowed size "
        ++ Nat.repr MAX_MESSAGE_SIZE)
      size MAX_MESSAGE_SIZE)
  else
    none

/-- The fields of the AWS SDK `SendMessageCommand` response that
`SqsClientImpl.send` reads (`MessageId!`, `MD5OfMessageBody!`,
`SequenceNumber`, the first two asserted non-null by the source). -/
structure SqsSendResponse : Type where
  messageId : String
  md5OfMessageBody : String
  sequenceNumber : Option String
  deriving DecidableEq

/--
An `SqsSendResult`-shaped JS object.  An outer `none` models a property the
constructing code left absent (`undefined`); `some none` models an explicit
`null`; `some (some v)` a real value.  The declared interfaces
(`SqsSendResultSuccess/Error/Failure`, result.ts lines 30–64) require every
property to be present.
-/
structure SqsSendResultObj : Type where
  kind : Option String
  processed : Option Bool
  ok : Option Bool
  error : Option (Option JsErr)
  messageId : Option (Option String)
  md5OfBody : Option (Option String)
  sequenceNumber : Option (Option String)
  duration : Option Nat
  deriving DecidableEq

/-- `createSqsSendResultSuccess` (result.ts lines 403–419). -/
def createSqsSendResultSuccess (messageId md5OfBody : String)
    (sequenceNumber : Option String) (duration : Nat) : SqsSendResultObj :=
  { kind := some "sqs:send", processed := some true, ok := some true
    error := some none, messageId := some (some messageId)
    md5OfBody := some (some md5OfBody)
    sequenceNumber := some sequenceNumber, duration := some duration }

/-- `createSqsSendResultError` (result.ts lines 424–438). -/
def createSqsSendResultError (error : JsErr) (duration : Nat) :
    SqsSendResultObj :=
  { kind := some "sqs:send", processed := some true, ok := some false
    error := some (some error), messageId := some none
    md5OfBody := some none, sequenceNumber := some none
    duration := some duration }

/-- `createSqsSendResultFailure` (result.ts lines 443–457). -/
def createSqsSendResultFailure (error : JsErr) (duration : Nat) :
    SqsSendResultObj :=
  { kind := some "sqs:send", processed := some false, ok := some false
    error := some (some error), messageId := some none
    md5OfBody := some none, sequenceNumber := some none
    duration := some duration }

/-- Entry of `SqsSendBatchResultSuccess.successful`. -/
structure SqsBatchSuccessEntry : Type where
  messageId : String
  id : String
  deriving DecidableEq

/-- Entry of a batch result's `failed` list. -/
structure SqsBatchFailedEntry : Type where
  id : String
  code : String
  message : String
  deriving DecidableEq

/-- An `SqsSendBatchResult`-shaped JS object, with field presence modelled
as in `SqsSendResultObj`. -/
structure SqsSendBatchResultObj : Type where
  kind : Option String
  processed : Option Bool
  ok : Option Bool
  error : Option (Option JsErr)
  successful : Option (Option (List SqsBatchSuccessEntry))
  failed : Option (Option (List SqsBatchFailedEntry))
  duration : Option Nat
  deriving DecidableEq

/-- `createSqsSendBatchResultSuccess` (result.ts lines 462–476): note the
constant `ok: true` even for a non-empty `failed` list. -/
def createSqsSendBatchResultSuccess (successful : List SqsBatchSuccessEntry)
    (failed : List SqsBatchFailedEntry) (duration : Nat) :
    SqsSendBatchResultObj :=
  { kind := some "sqs:send-batch", processed := some true, ok := some true
    error := some none, successful := some (some successful)
    failed := some (some failed), duration := some duration }

/-- `createSqsSendBatchResultError` (result.ts lines 481–494). -/
def createSqsSendBatchResultError (error : JsErr) (duration : Nat) :
    SqsSendBatchResultObj :=
  { kind := some "sqs:send-batch", processed := some true, ok := some false
    error := some (some error), successful := some (some [])
    failed := some (some []), duration := some duration }

/-- `createSqsSendBatchResultFailure` (result.ts lines 499–512):
`successful` and `failed` are explicit `null`, not empty arrays. -/
def createSqsSendBatchResultFailure (error : JsErr) (duration : Nat) :
    SqsSendBatchResultObj :=
  { kind := some "sqs:send-batch", processed := some false, ok := some false
    error := some (some error), successful := some none
    failed := some none, duration := some duration }

/-- A batch response entry of `Successful` as read by `sendBatch`
(`MessageId!`, `Id!`, asserted non-null by the source). -/
structure SqsRawBatchOkEntry : Type where
  id : String
  messageId : String
  deriving DecidableEq

/-- A batch response entry of `Failed` as read by `sendBatch`
(`Id!`, `Code!` asserted non-null, `Message ?? ""`). -/
structure SqsRawBatchErrEntry : Type where
  id : String
  code : String
  message : Option String
  deriving DecidableEq

/-- The fields of the AWS SDK `SendMessageBatchCommand` response read by
`sendBatch` (`Successful ?? []`, `Failed ?? []`). -/
structure SqsBatchResponse : Type where
  successful : Option (List SqsRawBatchOkEntry)
  failed : Option (List SqsRawBatchErrEntry)
  deriving DecidableEq

/-- One input message of `sendBatch` (`SqsBatchMessage`); only the fields
the modelled control flow reads. -/
structure SqsBatchMessage : Type where
  id : String
  body : String
  deriving DecidableEq

/--
`SqsClientImpl.send` (result.ts lines 1021–1057): `#ensureOpen` throws an
`SqsCommandError("Client is closed")` when the client is closed
(lines 1268–1272); `validateMessageSize` runs next, before the command is
built; then the SDK call races through `withOptions`; a settled response
yields the returned object literal of lines 1047–1053 — which spells only
`ok`, `messageId`, `md5OfBody`, `sequenceNumber` and `duration`, leaving
`kind`, `processed` and `error` absent — and any rejection is converted by
`convertSqsError`, which rethrows.
-/
def sqsSend (closed : Bool) (queueUrl : String) (body : String)
    (opts : Option CommonOpts) (opOutcome : Settle SqsSendResponse)
    (winner : Winner) (duration : Nat) : SqsOutcome SqsSendResultObj :=
  if closed then .thrown (.sqsCommandErr "Client is closed" "")
  else
    match validateMessageSize body with
    | some e => .thrown e
    | none =>
      match withOptions opts "send" opOutcome winner with
      | .value response =>
        .returned
          { kind := none, processed := none, ok := some true, error := none
            messageId := some (some response.messageId)
            md5OfBody := some (some response.md5OfMessageBody)
            sequenceNumber := some response.sequenceNumber
            duration := some duration }
      | .thrown e => .thrown (convertSqsError e "send" (some queueUrl))

/--
`SqsClientImpl.sendBatch` (result.ts lines 1059–1108): `#ensureOpen`, then
`validateMessageSize` on every message body in input order, then the SDK
call (passed to `withOptions` with `undefined` options, line 1084); a
settled response is reconciled into `successful`/`failed` with
`ok: failed.length === 0` (line 1100), again leaving `kind`, `processed`
and `error` absent; any rejection is converted by `convertSqsError`.
-/
def sqsSendBatch (closed : Bool) (queueUrl : String)
    (msgs : List SqsBatchMessage) (opOutcome : Settle SqsBatchResponse)
    (duration : Nat) : SqsOutcome SqsSendBatchResultObj :=
  if closed then .thrown (.sqsCommandErr "Client is closed" "")
  else
    match msgs.findSome? (fun m => validateMessageSize m.body) with
    | some e => .thrown e
    | none =>
      match withOptions none "sendBatch" opOutcome .operation with
      | .value response =>
        let successful := (response.successful.getD []).map
          (fun entry =>
            { messageId := entry.messageId, id := entry.id :
              SqsBatchSuccessEntry })
        let failed := (response.failed.getD []).map
          (fun entry =>
            { id := entry.id, code := entry.code
              message := entry.message.getD "" : SqsBatchFailedEntry })
        .returned
          { kind := none, processed := none
            ok := some (failed.length == 0), error := none
            successful := some (some successful)
            failed := some (some failed), duration := some duration }
      | .thrown e => .thrown (convertSqsError e "sendBatch" (some queueUrl))

/-- Client-instance state of `SqsClientImpl` relevant to `close`: the
`#closed` flag, plus a counter of `SQSClient.destroy()` invocations. -/
structure SqsClientState : Type where
  closed : Bool
  destroyCount : Nat
  deriving DecidableEq

/--
`SqsClientImpl.close` (result.ts lines 1252–1262): an early return when
already closed; otherwise set `#closed`, call `destroy()` (its errors are
swallowed by the empty `catch`, so the returned promise always resolves).
-/
def sqsClose (s : SqsClientState) : Settle Unit × SqsClientState :=
  if s.closed then (.value (), s)
  else (.value (), { closed := true, destroyCount := s.destroyCount + 1 })

/-- Client-instance state of `MySqlClientImpl` relevant to `close`: the
`#closed` flag, plus a counter of `pool.end()` invocations. -/
structure MySqlClientState : Type where
  closed : Bool
  poolEndCount : Nat
  deriving DecidableEq

/--
`MySqlClientImpl.close` (mysql client source, lines 252–256): an early
return when already closed; otherwise set `#closed` first, then await
`pool.end()`, whose settlement `endOutcome` is propagated.
-/
def mysqlClose (endOutcome : Settle Unit) (s : MySqlClientState) :
    Settle Unit × MySqlClientState :=
  if s.closed then (.value (), s)
  else (endOutcome, { closed := true, poolEndCount := s.poolEndCount + 1 })

-- ============================================================================
-- Redis result factories (redis results source, lines 353–399)
-- ============================================================================

/-- A `RedisGetResult`-shaped JS object, with field presence modelled as in
`SqsSendResultObj`. -/
structure RedisGetResultObj : Type where
  kind : Option String
  processed : Option Bool
  ok : Option Bool
  error : Option (Option JsErr)
  value : Option (Option String)
  duration : Option Nat
  deriving DecidableEq

/-- `createRedisGetResultSuccess` (redis results source, lines 353–365). -/
def createRedisGetResultSuccess (value : Option String) (duration : Nat) :
    RedisGetResultObj :=
  { kind := some "redis:get", processed := some true, ok := some true
    error := some none, value := some value, duration := some duration }

/-- `createRedisGetResultError` (redis results source, lines 370–382). -/
def createRedisGetResultError (error : JsErr) (duration : Nat) :
    RedisGetResultObj :=
  { kind := some "redis:get", processed := some true, ok := some false
    error := some (some error), value := some none
    duration := some duration }

/-- `createRedisGetResultFailure` (redis results source, lines 387–399). -/
def createRedisGetResultFailure (error : JsErr) (duration : Nat) :
    RedisGetResultObj :=
  { kind := some "redis:get", processed := some false, ok := some false
    error := some (some error), value := some none
    duration := some duration }

/--
The spec's tri-state invariant on the discriminator fields of a result
object: exactly one of success (`processed=true, ok=true, error=null`),
operation error (`processed=true, ok=false, error` a present error value)
or transport failure (`processed=false, ok=false, error` a present error
value).  An absent (`none`) `processed` or `error` field satisfies no case.
-/
def triStateFlags (processed ok : Option Bool)
    (error : Option (Option JsErr)) : Bool :=
  (processed == some true && ok == some true && error == some none) ||
  (processed == some true && ok == some false &&
    (match error with | some (some _) => true | _ => false)) ||
  (processed == some false && ok == some false &&
    (match error with | some (some _) => true | _ => false))

/-- Is the outcome of `#request` a returned response (not a throw)? -/
def HttpOutcome.isReturned : HttpOutcome → Bool
  | .returned _ => true
  | .thrown _ => false

-- ============================================================================
-- Concrete fixtures used by closed counterexamples and witnesses
-- ============================================================================

/-- A concrete stand-in for `TextDecoder.decode` in closed statements. -/
def decStub : List Nat → String := fun _ => ""

/-- A concrete stand-in for the error-detail formatter in closed statements. -/
def fmtStub : String → String := fun s => s

/-- A concrete stand-in for `JSON.parse` in closed statements. -/
def parseStub : String → Nat := fun s => s.length

/-- A concrete stand-in for the constraint-name regex extraction in closed
statements (the source falls back to this very string when the regex does
not match). -/
def constraintStub : String → String := fun _ => "unknown"

/-- A fresh success-response body state: two body bytes, nothing decoded or
parsed yet, both instrumentation counters zero. -/
def cacheDemoState : BodyState Nat :=
  { body := some [104, 105], textCache := none, jsonCache := none
    jsonParsed := false, decodeCount := 0, parseCount := 0 }

/-- A message body of 262145 `a` characters — one byte over the 256 KiB
limit once UTF-8 encoded. -/
def bigBody : String := String.mk (List.replicate 262145 'a')

-- ============================================================================
-- Helper lemmas
-- ============================================================================

/-- The UTF-8 byte size of a replicated ASCII `a` string is its length. -/
theorem utf8ByteSize_replicate_a (n : Nat) :
    (String.mk (List.replicate n 'a')).utf8ByteSize = n := by
  induction n with
  | zero => rfl
  | succ k ih =>
    simp only [String.utf8ByteSize_mk, List.replicate] at ih ⊢
    simp [String.utf8Len_cons, ih]
    rfl

/-- `validateMessageSize` accepts a body within the limit. -/
theorem validateMessageSize_eq_none {body : String}
    (h : body.utf8ByteSize ≤ MAX_MESSAGE_SIZE) :
    validateMessageSize body = none := by
  simp [validateMessageSize, Nat.not_lt.mpr h]

/-- `validateMessageSize` rejects an oversized body with the size error. -/
theorem validateMessageSize_oversized {body : String}
    (h : MAX_MESSAGE_SIZE < body.utf8ByteSize) :
    validateMessageSize body =
      some (.sqsMessageTooLargeErr
        ("Message size " ++ Nat.repr body.utf8ByteSize
          ++ " exceeds maximum allowed size " ++ Nat.repr MAX_MESSAGE_SIZE)
        body.utf8ByteSize MAX_MESSAGE_SIZE) := by
  simp [validateMessageSize, h]

/-- With an oversized message in the batch, the per-message validation loop
produces a size error. -/
theorem findSome_validate_of_oversized (msgs : List SqsBatchMessage)
    (h : ∃ m ∈ msgs, MAX_MESSAGE_SIZE < m.body.utf8ByteSize) :
    ∃ e, msgs.findSome? (fun m => validateMessageSize m.body) = some e ∧
      e.isSizeErr = true := by
  induction msgs with
  | nil => simp at h
  | cons m rest ih =>
    by_cases hm : MAX_MESSAGE_SIZE < m.body.utf8ByteSize
    · refine ⟨JsErr.sqsMessageTooLargeErr
        ("Message size " ++ Nat.repr m.body.utf8ByteSize
          ++ " exceeds maximum allowed size " ++ Nat.repr MAX_MESSAGE_SIZE)
        m.body.utf8ByteSize MAX_MESSAGE_SIZE, ?_, rfl⟩
      simp [List.findSome?, validateMessageSize_oversized hm]
    · rcases h with ⟨m', hm', hsz⟩
      rcases List.mem_cons.mp hm' with heq | hmem
      · exact absurd hsz (heq ▸ hm)
      · rcases ih ⟨m', hmem, hsz⟩ with ⟨e, he, hsize⟩
        refine ⟨e, ?_, hsize⟩
        simp [List.findSome?, validateMessageSize_eq_none (Nat.not_lt.mp hm), he]

/-- With every batch body within the limit, the validation loop passes. -/
theorem findSome_validate_of_within (msgs : List SqsBatchMessage)
    (h : ∀ m ∈ msgs, m.body.utf8ByteSize ≤ MAX_MESSAGE_SIZE) :
    msgs.findSome? (fun m => validateMessageSize m.body) = none := by
  induction msgs with
  | nil => rfl
  | cons m rest ih =>
    simp [List.findSome?, validateMessageSize_eq_none (h m (by simp)),
      ih (fun m' hm' => h m' (by simp [hm']))]

/-- The SQS taxonomy never produces an `SqsMessageTooLargeError`. -/
theorem convertSqsError_isSizeErr (e : JsErr) (op : String)
    (q : Option String) : (convertSqsError e op q).isSizeErr = false := by
  cases e <;> simp [convertSqsError, JsErr.isSizeErr] <;> split_ifs <;> rfl

-- ============================================================================
-- Claim theorems
-- ============================================================================

/-- C1 (counterexample): an HTTP request issued with `throwOnError=false`
whose fetch settles with a client `TimeoutError` does NOT throw: the
classified `TimeoutError` comes back inside a returned failure response,
refuting the claim that timeout transport failures are thrown regardless of
the `throwOnError` setting. -/
theorem claim1_counterexample :
    httpRequest (some false) none "https://api.example/users" decStub fmtStub
      (.thrown (.timeoutErr "Operation timed out: request" 50)) 7 =
      .returned (createHttpResponseFailure "https://api.example/users" 7
        (.timeoutErr "Operation timed out: request" 50)) := by
  rfl

/-- C1 (amended): in the SQS client a timeout win of the `withOptions` race
is always thrown (carrying the configured duration; `convertSqsError`
rethrows it unchanged and no `throwOnError` switch exists there), while in
the HTTP client a fetch-level failure — timeout and abort included — is
thrown exactly when `throwOnError` resolves to `true` and otherwise
returned as a failure response. -/
theorem claim1_throw_policy_amended (qUrl body : String) (t d : Nat)
    (opOut : Settle SqsSendResponse)
    (hsize : validateMessageSize body = none)
    (url : String) (cfgT : Option Bool) (dec : List Nat → String)
    (fmt : String → String) (err : JsErr) (d2 : Nat) :
    sqsSend false qUrl body (some ⟨some t, false, false⟩) opOut .timer d =
      .thrown (.timeoutErr "Operation timed out: send" t) ∧
    httpRequest (some false) cfgT url dec fmt (.thrown err) d2 =
      .returned (createHttpResponseFailure url d2 (convertFetchError err)) ∧
    httpRequest (some true) cfgT url dec fmt (.thrown err) d2 =
      .thrown (convertFetchError err) := by
  refine ⟨?_, ?_, ?_⟩
  · simp [sqsSend, hsize, withOptions, convertSqsError]
  · simp [httpRequest, resolveShouldThrow]
  · simp [httpRequest, resolveShouldThrow]

/-- C1 (witness): the amended theorem applied to a 1-byte body with a 50 ms
timeout and to a fetch-level `TypeError`. -/
theorem claim1_witness :
    validateMessageSize "x" = none ∧
    (sqsSend false "https://q" "x" (some ⟨some 50, false, false⟩)
        (.value ⟨"m", "d", none⟩) .timer 3 =
      .thrown (.timeoutErr "Operation timed out: send" 50) ∧
    httpRequest (some false) none "https://api/u" decStub fmtStub
        (.thrown (.genericErr "TypeError" "fetch failed" true)) 7 =
      .returned (createHttpResponseFailure "https://api/u" 7
        (convertFetchError (.genericErr "TypeError" "fetch failed" true))) ∧
    httpRequest (some true) none "https://api/u" decStub fmtStub
        (.thrown (.genericErr "TypeError" "fetch failed" true)) 7 =
      .thrown (convertFetchError (.genericErr "TypeError" "fetch failed" true))) :=
  ⟨rfl, claim1_throw_policy_amended "https://q" "x" 50 3 (.value ⟨"m", "d", none⟩)
    rfl "https://api/u" none decStub fmtStub
    (.genericErr "TypeError" "fetch failed" true) 7⟩

/-- C2: the object literal returned by the success path of
`SqsClientImpl.send` spells only `ok`, `messageId`, `md5OfBody`,
`sequenceNumber` and `duration`, so its `processed` and `error` properties
are absent and no case of the declared tri-state invariant holds — while
every modelled factory function does satisfy the invariant. -/
theorem claim2_tristate :
    (sqsSend false "https://sqs.example/q" "hello" none
        (.value ⟨"m1", "5d41402abc4b2a76b9719d911017c592", none⟩) .operation 5 =
      .returned
        { kind := none, processed := none, ok := some true, error := none
          messageId := some (some "m1")
          md5OfBody := some (some "5d41402abc4b2a76b9719d911017c592")
          sequenceNumber := some none, duration := some 5 }) ∧
    triStateFlags none (some true) none = false ∧
    (∀ (mid md5 : String) (seq : Option String) (d : Nat),
      triStateFlags (createSqsSendResultSuccess mid md5 seq d).processed
        (createSqsSendResultSuccess mid md5 seq d).ok
        (createSqsSendResultSuccess mid md5 seq d).error = true) ∧
    (∀ (e : JsErr) (d : Nat),
      triStateFlags (createSqsSendResultError e d).processed
        (createSqsSendResultError e d).ok
        (createSqsSendResultError e d).error = true) ∧
    (∀ (e : JsErr) (d : Nat),
      triStateFlags (createSqsSendResultFailure e d).processed
        (createSqsSendResultFailure e d).ok
        (createSqsSendResultFailure e d).error = true) ∧
    (∀ (v : Option String) (d : Nat),
      triStateFlags (createRedisGetResultSuccess v d).processed
        (createRedisGetResultSuccess v d).ok
        (createRedisGetResultSuccess v d).error = true) ∧
    (∀ (e : JsErr) (d : Nat),
      triStateFlags (createRedisGetResultError e d).processed
        (createRedisGetResultError e d).ok
        (createRedisGetResultError e d).error = true) ∧
    (∀ (e : JsErr) (d : Nat),
      triStateFlags (createRedisGetResultFailure e d).processed
        (createRedisGetResultFailure e d).ok
        (createRedisGetResultFailure e d).error = true) := by
  refine ⟨by decide, rfl, ?_, ?_, ?_, ?_, ?_, ?_⟩ <;> intros <;> rfl

/-- C3 (counterexample): an SQS send whose backend reports the protocol
error `QueueDoesNotExist` (with no `throwOnError` involved — the SQS
operations have no such option) throws the classified
`SqsQueueNotFoundError` instead of returning an error-state Result. -/
theorem claim3_counterexample :
    sqsSend false "https://q" "hi" none
      (.thrown (.genericErr "QueueDoesNotExist" "Queue does not exist" false))
      .operation 4 =
      .thrown (.sqsQueueNotFoundErr "Queue does not exist" "https://q") := by
  decide

/-- C3 (amended): in the HTTP client, whenever `throwOnError` resolves to
`false`, every outcome — success, protocol error or transport failure — is
returned as a Result; in the SQS client, by contrast, every rejected
operation throws the error classified by `convertSqsError`, so error- and
failure-state Results are never returned by its operations. -/
theorem claim3_failures_as_results_amended (oT cT : Option Bool)
    (h : resolveShouldThrow oT cT = false)
    (url : String) (dec : List Nat → String) (fmt : String → String)
    (fetched : Settle RawResp) (d : Nat)
    (qUrl body : String) (e : JsErr)
    (hsize : validateMessageSize body = none) (d2 : Nat) :
    (httpRequest oT cT url dec fmt fetched d).isReturned = true ∧
    sqsSend false qUrl body none (.thrown e) .operation d2 =
      .thrown (convertSqsError e "send" (some qUrl)) := by
  constructor
  · cases fetched with
    | thrown err => simp [httpRequest, h, HttpOutcome.isReturned]
    | value raw =>
      by_cases hok : raw.ok <;>
        simp [httpRequest, h, hok, HttpOutcome.isReturned]
  · simp [sqsSend, hsize, withOptions]

/-- C3 (witness): the amended theorem applied to a processed 404 response
with `throwOnError` unset, and to an SQS send rejected with a generic
backend error. -/
theorem claim3_witness :
    resolveShouldThrow none none = false ∧
    ((httpRequest none none "https://api/u" decStub fmtStub
        (.value ⟨false, 404, "Not Found", none⟩) 5).isReturned = true ∧
    sqsSend false "https://q" "x" none
        (.thrown (.genericErr "OtherError" "oops" false)) .operation 2 =
      .thrown (convertSqsError (.genericErr "OtherError" "oops" false)
        "send" (some "https://q"))) :=
  ⟨rfl, claim3_failures_as_results_amended none none rfl "https://api/u"
    decStub fmtStub (.value ⟨false, 404, "Not Found", none⟩) 5 "https://q" "x"
    (.genericErr "OtherError" "oops" false) rfl 2⟩

/-- C4: for a 3-message batch whose backend response accepts items 1 and 3
and rejects item 2, `sendBatch` reconciles `successful.length = 2` and
`failed.length = 1` but computes `ok = failed.length === 0`, i.e.
`ok = false` — while the success factory declared for exactly this
partition carries `ok = true`, matching the claim and the source's own
`SqsSendBatchResultSuccess` documentation. -/
theorem claim4_partial_batch :
    sqsSendBatch false "https://sqs.example/q"
      [⟨"1", "a"⟩, ⟨"2", "b"⟩, ⟨"3", "c"⟩]
      (.value ⟨some [⟨"1", "m1"⟩, ⟨"3", "m3"⟩],
        some [⟨"2", "SenderFault", some "bad"⟩]⟩) 7 =
      .returned
        { kind := none, processed := none, ok := some false, error := none
          successful := some (some [⟨"m1", "1"⟩, ⟨"m3", "3"⟩])
          failed := some (some [⟨"2", "SenderFault", "bad"⟩])
          duration := some 7 } ∧
    (createSqsSendBatchResultSuccess [⟨"m1", "1"⟩, ⟨"m3", "3"⟩]
      [⟨"2", "SenderFault", "bad"⟩] 7).ok = some true := by
  constructor
  · decide
  · rfl

/-- C5 (counterexample): a batch call that fails entirely (backend rejects
the whole `SendMessageBatchCommand`) yields no BatchResult at all: the SQS
client throws the converted error, refuting the claim that such a call
results in a `successful=null, failed=null, ok=false` BatchResult. -/
theorem claim5_counterexample :
    sqsSendBatch false "https://q" [⟨"1", "hi"⟩]
      (.thrown (.genericErr "InternalError" "boom" false)) 3 =
      .thrown (.sqsCommandErr "boom" "sendBatch") := by
  decide

/-- C5 (amended): the failure factory `createSqsSendBatchResultFailure`
does construct the claimed shape — `successful` and `failed` explicitly
`null` (not empty arrays), `ok=false`, `processed=false` — but the SQS
client never returns it: a batch call whose command rejects throws the
error classified by `convertSqsError` instead. -/
theorem claim5_null_batch_amended (e : JsErr) (d : Nat) (qUrl : String)
    (msgs : List SqsBatchMessage)
    (h : msgs.findSome? (fun m => validateMessageSize m.body) = none) :
    (createSqsSendBatchResultFailure e d).successful = some none ∧
    (createSqsSendBatchResultFailure e d).failed = some none ∧
    (createSqsSendBatchResultFailure e d).ok = some false ∧
    (createSqsSendBatchResultFailure e d).processed = some false ∧
    sqsSendBatch false qUrl msgs (.thrown e) d =
      .thrown (convertSqsError e "sendBatch" (some qUrl)) := by
  refine ⟨rfl, rfl, rfl, rfl, ?_⟩
  simp [sqsSendBatch, h, withOptions]

/-- C5 (witness): the amended theorem applied to a connection error and an
empty batch. -/
theorem claim5_witness :
    ([] : List SqsBatchMessage).findSome?
        (fun m => validateMessageSize m.body) = none ∧
    ((createSqsSendBatchResultFailure (.sqsConnectionErr "no route") 4).successful
        = some none ∧
    (createSqsSendBatchResultFailure (.sqsConnectionErr "no route") 4).failed
        = some none ∧
    (createSqsSendBatchResultFailure (.sqsConnectionErr "no route") 4).ok
        = some false ∧
    (createSqsSendBatchResultFailure (.sqsConnectionErr "no route") 4).processed
        = some false ∧
    sqsSendBatch false "https://q" [] (.thrown (.sqsConnectionErr "no route")) 4 =
      .thrown (convertSqsError (.sqsConnectionErr "no route") "sendBatch"
        (some "https://q"))) :=
  ⟨rfl, claim5_null_batch_amended (.sqsConnectionErr "no route") 4 "https://q" [] rfl⟩

/-- C6 (counterexample): the MySQL taxonomy does NOT pass a client
`TimeoutError` or `AbortError` through unchanged: neither value has a
`code` or `errno` property, so both fall to the final
`new MySqlError(err.message, options)` and come back as a new
backend-specific error of kind `unknown`, refuting the universal claim. -/
theorem claim6_counterexample :
    convertMySqlError constraintStub (.timeoutErr "Operation timed out: query" 50) =
      .mysqlErr "Operation timed out: query" none ∧
    convertMySqlError constraintStub (.timeoutErr "Operation timed out: query" 50) ≠
      .timeoutErr "Operation timed out: query" 50 ∧
    convertMySqlError constraintStub (.abortErr "Operation aborted: query") =
      .mysqlErr "Operation aborted: query" none ∧
    convertMySqlError constraintStub (.abortErr "Operation aborted: query") ≠
      .abortErr "Operation aborted: query" := by
  refine ⟨rfl, ?_, rfl, ?_⟩ <;> decide

/-- C6 (amended): the SQS and HTTP taxonomies — `convertSqsError` and
`convertFetchError` — pass a client `TimeoutError` or `AbortError` through
as the very same value; the MySQL taxonomy `convertMySqlError`, which
discriminates only on the `code` and `errno` properties, instead
reclassifies either value into a fresh generic `MySqlError` (kind
`unknown`) carrying the original message and no `errno`. -/
theorem claim6_taxonomy_passthrough_amended (e : JsErr) (op : String)
    (q : Option String) (ext : String → String)
    (h : e.isTimeoutOrAbort = true) :
    convertSqsError e op q = e ∧ convertFetchError e = e ∧
    convertMySqlError ext e = .mysqlErr e.errMessage none := by
  cases e <;> simp_all [JsErr.isTimeoutOrAbort, convertSqsError,
    convertFetchError, convertMySqlError, JsErr.isJsError, JsErr.errErrno,
    JsErr.errCode, JsErr.errMessage]

/-- C6 (witness): the amended theorem applied to a concrete
`TimeoutError`. -/
theorem claim6_witness :
    (JsErr.timeoutErr "t" 9).isTimeoutOrAbort = true ∧
    (convertSqsError (.timeoutErr "t" 9) "send" none = .timeoutErr "t" 9 ∧
      convertFetchError (.timeoutErr "t" 9) = .timeoutErr "t" 9 ∧
      convertMySqlError constraintStub (.timeoutErr "t" 9) =
        .mysqlErr (JsErr.timeoutErr "t" 9).errMessage none) :=
  ⟨rfl, claim6_taxonomy_passthrough_amended (.timeoutErr "t" 9) "send" none
    constraintStub rfl⟩

/-- C7 (counterexample): when `fetch` rejects with a native exception named
`TimeoutError` — the settlement of an attempt whose caller configured its
timeout (say, 50 ms) on the abort signal — the classified `TimeoutError`
carries `timeoutMs = 0`, not the configured duration. -/
theorem claim7_counterexample :
    convertFetchError (.genericErr "TimeoutError" "The signal timed out" false) =
      .timeoutErr "Request timed out" 0 ∧
    (convertFetchError
      (.genericErr "TimeoutError" "The signal timed out" false)).timeoutMsOf
      ≠ some 50 := by
  constructor
  · rfl
  · decide

/-- C7 (amended): the `TimeoutError` produced by the `withOptions` timeout
race does carry the configured duration, and `AbortError` carries no
duration — but the HTTP taxonomy's wrapping of a native timeout exception
hardcodes `timeoutMs = 0`. -/
theorem claim7_duration_amended {α : Type} (op : String) (t : Nat)
    (opOut : Settle α) (msg : String) :
    withOptions (some ⟨some t, false, false⟩) op opOut .timer =
      .thrown (.timeoutErr ("Operation timed out: " ++ op) t) ∧
    (JsErr.abortErr msg).timeoutMsOf = none ∧
    convertFetchError (.genericErr "TimeoutError" msg false) =
      .timeoutErr "Request timed out" 0 := by
  refine ⟨?_, rfl, ?_⟩
  · simp [withOptions]
  · simp [convertFetchError, JsErr.isJsError, JsErr.errName]

/-- C8: for a response with a non-null body, `text()` and `json()` decode
and parse on first access only; a repeated call returns the identical
cached value and leaves the state fixed, the decoder and parser run at most
once, and the first call changes nothing beyond populating the caches and
their instrumentation counters. -/
theorem claim8_body_cache {β : Type} (dec : List Nat → String)
    (parse : String → β) (s : BodyState β) (bs : List Nat)
    (h : s.body = some bs) :
    respText dec (respText dec s).2 = ((respText dec s).1, (respText dec s).2) ∧
    (respText dec s).2.decodeCount ≤ s.decodeCount + 1 ∧
    (respText dec s).2.body = s.body ∧
    (respText dec s).2.jsonCache = s.jsonCache ∧
    (respText dec s).2.jsonParsed = s.jsonParsed ∧
    (respText dec s).2.parseCount = s.parseCount ∧
    respJson dec parse (respJson dec parse s).2 =
      ((respJson dec parse s).1, (respJson dec parse s).2) ∧
    (respJson dec parse s).2.decodeCount ≤ s.decodeCount + 1 ∧
    (respJson dec parse s).2.parseCount ≤ s.parseCount + 1 := by
  cases hc : s.textCache with
  | some c =>
    refine ⟨?_, ?_, ?_, ?_, ?_, ?_, ?_, ?_, ?_⟩ <;>
      cases hj : s.jsonParsed <;>
      simp [respText, respJson, h, hc, hj]
  | none =>
    refine ⟨?_, ?_, ?_, ?_, ?_, ?_, ?_, ?_, ?_⟩ <;>
      cases hj : s.jsonParsed <;>
      simp [respText, respJson, h, hc, hj]

/-- C8 (witness): the caching theorem applied to a fresh two-byte body
state with concrete decoder and parser stubs. -/
theorem claim8_witness :
    cacheDemoState.body = some [104, 105] ∧
    (respText decStub (respText decStub cacheDemoState).2 =
        ((respText decStub cacheDemoState).1, (respText decStub cacheDemoState).2) ∧
      (respText decStub cacheDemoState).2.decodeCount ≤ cacheDemoState.decodeCount + 1 ∧
      (respText decStub cacheDemoState).2.body = cacheDemoState.body ∧
      (respText decStub cacheDemoState).2.jsonCache = cacheDemoState.jsonCache ∧
      (respText decStub cacheDemoState).2.jsonParsed = cacheDemoState.jsonParsed ∧
      (respText decStub cacheDemoState).2.parseCount = cacheDemoState.parseCount ∧
      respJson decStub parseStub (respJson decStub parseStub cacheDemoState).2 =
        ((respJson decStub parseStub cacheDemoState).1,
          (respJson decStub parseStub cacheDemoState).2) ∧
      (respJson decStub parseStub cacheDemoState).2.decodeCount
          ≤ cacheDemoState.decodeCount + 1 ∧
      (respJson decStub parseStub cacheDemoState).2.parseCount
          ≤ cacheDemoState.parseCount + 1) :=
  ⟨rfl, claim8_body_cache decStub parseStub cacheDemoState [104, 105] rfl⟩

/-- C9: `close()` is idempotent for both modelled owning clients: after a
first `close`, a second `close` resolves without error, leaves the client
state unchanged, and in particular does not release the underlying
transport (`SQSClient.destroy`) or pool (`pool.end`) a second time. -/
theorem claim9_close_idempotent (s : SqsClientState) (t : MySqlClientState)
    (endOutcome : Settle Unit) :
    sqsClose (sqsClose s).2 = (.value (), (sqsClose s).2) ∧
    mysqlClose endOutcome (mysqlClose endOutcome t).2 =
      (.value (), (mysqlClose endOutcome t).2) := by
  constructor
  · by_cases h : s.closed <;> simp [sqsClose, h]
  · by_cases h : t.closed <;> simp [mysqlClose, h]

/-- C10: a body whose UTF-8 encoding exceeds 262144 bytes makes `send`
throw the `SqsMessageTooLargeError` before any backend outcome is
consulted, and a batch containing such a body does the same; a body (or
batch of bodies) at or under the limit never raises a size error. -/
theorem claim10_message_size (qUrl body : String) (opts : Option CommonOpts)
    (opOut : Settle SqsSendResponse) (w : Winner) (d : Nat)
    (msgs : List SqsBatchMessage) (opOutB : Settle SqsBatchResponse) :
    (MAX_MESSAGE_SIZE < body.utf8ByteSize →
      sqsSend false qUrl body opts opOut w d =
        .thrown (.sqsMessageTooLargeErr
          ("Message size " ++ Nat.repr body.utf8ByteSize
            ++ " exceeds maximum allowed size " ++ Nat.repr MAX_MESSAGE_SIZE)
          body.utf8ByteSize MAX_MESSAGE_SIZE)) ∧
    (body.utf8ByteSize ≤ MAX_MESSAGE_SIZE →
      (sqsSend false qUrl body opts opOut w d).isSizeThrow = false) ∧
    ((∃ m ∈ msgs, MAX_MESSAGE_SIZE < m.body.utf8ByteSize) →
      (sqsSendBatch false qUrl msgs opOutB d).isSizeThrow = true) ∧
    ((∀ m ∈ msgs, m.body.utf8ByteSize ≤ MAX_MESSAGE_SIZE) →
      (sqsSendBatch false qUrl msgs opOutB d).isSizeThrow = false) := by
  refine ⟨fun h => ?_, fun h => ?_, fun h => ?_, fun h => ?_⟩
  · simp [sqsSend, validateMessageSize_oversized h]
  · rw [sqsSend]
    simp only [if_false, Bool.false_eq_true, validateMessageSize_eq_none h]
    cases hw : withOptions opts "send" opOut w with
    | value r => simp [SqsOutcome.isSizeThrow]
    | thrown e => simp [SqsOutcome.isSizeThrow, convertSqsError_isSizeErr]
  · rcases findSome_validate_of_oversized msgs h with ⟨e, he, hsize⟩
    simp [sqsSendBatch, he, SqsOutcome.isSizeThrow, hsize]
  · rw [sqsSendBatch]
    simp only [if_false, Bool.false_eq_true, findSome_validate_of_within msgs h]
    cases opOutB with
    | value r => simp [withOptions, SqsOutcome.isSizeThrow]
    | thrown e => simp [withOptions, SqsOutcome.isSizeThrow, convertSqsError_isSizeErr]

/-- C10 (witness): the size theorem applied to the 262145-byte body
`bigBody`, which is one byte over the limit and makes `send` throw
regardless of the backend. -/
theorem claim10_witness :
    MAX_MESSAGE_SIZE < bigBody.utf8ByteSize ∧
    sqsSend false "https://q" bigBody none (.value ⟨"m", "d", none⟩)
        .operation 0 =
      .thrown (.sqsMessageTooLargeErr
        ("Message size " ++ Nat.repr bigBody.utf8ByteSize
          ++ " exceeds maximum allowed size " ++ Nat.repr MAX_MESSAGE_SIZE)
        bigBody.utf8ByteSize MAX_MESSAGE_SIZE) :=
  have h : MAX_MESSAGE_SIZE < bigBody.utf8ByteSize := by
    rw [bigBody, utf8ByteSize_replicate_a]; decide
  ⟨h, (claim10_message_size "https://q" bigBody none (.value ⟨"m", "d", none⟩)
    .operation 0 [] (.value ⟨none, none⟩)).1 h⟩

end Probitas
